import Mathlib

/-!
Shallow embedding of the Packlyze bundle analyzer
(`src/analyzer/packlyze.ts`) and proofs about the claims of its
specification.

JSON numbers are modelled by `Rat` (JSON cannot encode `NaN`/`Infinity`,
and every arithmetic step of the analyzer is exact on the integer byte
counts it is meant to process).  Optional JSON fields are modelled by
`Option`; JavaScript falsiness of `undefined`, `0` and `""` is modelled
explicitly by the `jsOr*`/`jsTruthy` helpers.  JavaScript `Map`s and
`Set`s are modelled by insertion-ordered association lists, matching the
iteration order the code relies on, and `Array.prototype.sort` by a
stable insertion sort.
-/

namespace Packlyze

abbrev JSNum := Rat

/-- A `reasons` array entry: `string | { moduleName?: string }`. -/
inductive RawReason where
  | str (s : String)
  | obj (moduleName : Option String)
deriving DecidableEq, Repr

/-- An `assets[]` entry: `{ size?: number; gzipSize?: number }`. -/
structure RawAsset where
  size : Option JSNum := none
  gzipSize : Option JSNum := none
deriving DecidableEq, Repr

/-- A top-level `modules[]` entry. -/
structure RawModule where
  name : Option String := none
  size : Option JSNum := none
  gzipSize : Option JSNum := none
  reasons : Option (List RawReason) := none
  source : Option String := none
deriving DecidableEq, Repr

/-- A nested `chunks[].modules[]` entry: either a bare name string or an
object (webpack 5+ emits both shapes). -/
inductive RawChunkModule where
  | str (s : String)
  | obj (name : Option String) (size : Option JSNum) (gzipSize : Option JSNum)
      (reasons : Option (List RawReason))
deriving DecidableEq, Repr

/-- A chunk id: `string | number`. -/
inductive ChunkId where
  | str (s : String)
  | num (n : Int)
deriving DecidableEq, Repr

/-- A `chunks[]` entry. -/
structure RawChunk where
  id : ChunkId := ChunkId.num 0
  name : Option String := none
  size : Option JSNum := none
  gzipSize : Option JSNum := none
  modules : Option (List RawChunkModule) := none
  initial : Option Bool := none
deriving DecidableEq, Repr

/-- An `errors[]` entry. -/
structure RawError where
  message : Option String := none
deriving DecidableEq, Repr

/-- The parsed stats document (`this.statsData`).  A `none` array field
models the field being absent or not an array (`Array.isArray` false). -/
structure RawStats where
  errors : Option (List RawError) := none
  assets : Option (List RawAsset) := none
  modules : Option (List RawModule) := none
  chunks : Option (List RawChunk) := none
  name : Option String := none
  parsedSize : Option JSNum := none
deriving DecidableEq, Repr

/-- JS `o || d` for an optional string: `undefined` and `""` are falsy. -/
def jsOrStr (o : Option String) (d : String) : String :=
  match o with
  | none => d
  | some s => if s = "" then d else s

/-- JS `a || b` for numbers: `0` is falsy. -/
def jsOrNum (a b : JSNum) : JSNum :=
  if a = 0 then b else a

/-- JS truthiness of an optional number: `undefined` and `0` are falsy. -/
def jsTruthy (o : Option JSNum) : Bool :=
  match o with
  | none => false
  | some x => x != 0

/-- `typeof r === 'string' ? r : r.moduleName ?? ''`. -/
def reasonToStr (r : RawReason) : String :=
  match r with
  | RawReason.str s => s
  | RawReason.obj mn => mn.getD ("")

/-- `Array.isArray(reasons) ? reasons.map(reasonToStr) : []`. -/
def reasonsToStrs (o : Option (List RawReason)) : List String :=
  match o with
  | some l => l.map reasonToStr
  | none => []

/-- Add an element to a JS `Set` modelled as an insertion-ordered list. -/
def insertUnique (l : List String) (s : String) : List String :=
  if s ∈ l then l else l ++ [s]

/-- `Array.from(new Set(l))`: first occurrences, in order. -/
def jsSetFrom (l : List String) : List String :=
  l.foldl insertUnique []

/-- One step of a stable descending insertion sort: the new element goes
after every element whose key is greater than or equal to its own. -/
def insertDescBy (key : α → JSNum) (x : α) : List α → List α
  | [] => [x]
  | y :: ys => if key y < key x then x :: y :: ys else y :: insertDescBy key x ys

/-- `arr.sort((a, b) => key(b) - key(a))` — a stable descending sort. -/
def sortDescBy (key : α → JSNum) (l : List α) : List α :=
  l.foldl (fun acc x => insertDescBy key x acc) []

/-- `list.reduce((sum, x) => sum + x, 0)`. -/
def qsum (l : List JSNum) : JSNum :=
  l.foldl (fun a b => a + b) 0

/-- `Math.min(...l)` for a non-empty list (the empty case is unreachable
in the analyzer; `0` is a dummy value). -/
def listMin (l : List JSNum) : JSNum :=
  match l with
  | [] => 0
  | x :: xs => xs.foldl min x

/-- Insert/update in a JS `Map` modelled as an insertion-ordered
association list: an existing key is updated in place, a new key is
appended at the end. -/
def mapUpsert (l : List (String × β)) (k : String) (f : Option β → β) :
    List (String × β) :=
  match l with
  | [] => [(k, f none)]
  | (k1, v) :: rest =>
    if k1 = k then (k1, f (some v)) :: rest else (k1, v) :: mapUpsert rest k f

/-! ## Canonical (derived) data model, from `types.ts` -/

/-- Canonical module record. -/
structure ModuleInfo where
  name : String
  size : JSNum
  gzipSize : Option JSNum
  percentage : JSNum
  reasons : List String
deriving DecidableEq, Repr

/-- Canonical chunk record.  `modules` holds `chunk.modules.map(m => m.name)`;
on a bare-string entry the property access yields `undefined`, hence the
`Option`. -/
structure ChunkInfo where
  id : ChunkId
  name : String
  size : JSNum
  gzipSize : Option JSNum
  modules : List (Option String)
deriving DecidableEq, Repr

structure BundleStats where
  name : String
  size : JSNum
  gzipSize : JSNum
  modules : List ModuleInfo
  chunks : List ChunkInfo
  isInitialBySize : JSNum
  isInitialByCount : Nat
  parsedSize : JSNum
deriving DecidableEq, Repr

structure DuplicateModule where
  names : List String
  totalSize : JSNum
  savings : JSNum
deriving DecidableEq, Repr

structure PackageStats where
  name : String
  totalSize : JSNum
  gzipSize : Option JSNum
  moduleCount : Nat
  modules : List String
  percentage : JSNum
deriving DecidableEq, Repr

structure UnusedModule where
  name : String
  size : JSNum
  reason : String
deriving DecidableEq, Repr

/-- Metrics record; `totalBrotliSize` is `Math.round`ed, hence an `Int`. -/
structure BundleMetrics where
  totalSize : JSNum
  totalGzipSize : JSNum
  totalBrotliSize : Option Int
  moduleCount : Nat
  chunkCount : Nat
  largestModule : ModuleInfo
  averageModuleSize : JSNum
deriving DecidableEq, Repr

/-! ## Validation (`validateStats`) -/

/-- Why validation classified the document as schema-invalid. -/
inductive SchemaReason where
  | noArrays
  | emptyContent
  | negativeModuleSize
  | negativeAssetSize
deriving DecidableEq, Repr

/-- The error taxonomy of `validateStats` (`FileNotFound`/`ParseError`
happen before the document exists and are outside this model). -/
inductive ValidationError where
  | buildFailed (errorCount : Nat) (firstMessages : List String)
  | schemaError (why : SchemaReason)
deriving DecidableEq, Repr

/-- `validateStats` (packlyze.ts lines 80–157).  The thrown messages are
modelled by the structured `ValidationError`; `buildFailed` carries
`errors.length` and the first up-to-three messages
(`errors.slice(0, 3).map(e => e.message || 'Unknown error')`). -/
def validateStats (raw : RawStats) : Except ValidationError Unit :=
  let errors := raw.errors.getD []
  if 0 < errors.length then
    Except.error (ValidationError.buildFailed errors.length
      ((errors.take 3).map (fun e => jsOrStr e.message ("Unknown error"))))
  else
    let hasAssets := raw.assets.isSome
    let hasModules := raw.modules.isSome
    let hasChunks := raw.chunks.isSome
    if ¬hasAssets ∧ ¬hasModules ∧ ¬hasChunks then
      Except.error (ValidationError.schemaError SchemaReason.noArrays)
    else
      let assetsCount := (raw.assets.getD []).length
      let modulesCount := (raw.modules.getD []).length
      let chunksWithModules :=
        ((raw.chunks.getD []).filter (fun c =>
          match c.modules with
          | some l => decide (0 < l.length)
          | none => false)).length
      if assetsCount = 0 ∧ modulesCount = 0 ∧ chunksWithModules = 0 then
        Except.error (ValidationError.schemaError SchemaReason.emptyContent)
      else
        if (raw.modules.getD []).any (fun m =>
            match m.size with
            | some s => decide (s < 0)
            | none => false) then
          Except.error (ValidationError.schemaError SchemaReason.negativeModuleSize)
        else if (raw.assets.getD []).any (fun a =>
            match a.size with
            | some s => decide (s < 0)
            | none => false) then
          Except.error (ValidationError.schemaError SchemaReason.negativeAssetSize)
        else
          Except.ok ()

/-- `true` exactly on the `SchemaError` branch of the taxonomy. -/
def resultIsSchemaError (r : Except ValidationError Unit) : Bool :=
  match r with
  | Except.error (ValidationError.schemaError _) => true
  | _ => false

/-! ## Total size resolution (`getTotalSize`, `getTotalGzipSize`) -/

/-- `assets.reduce((sum, a) => sum + (a.size || 0), 0)`. -/
def assetSizeSum (assets : List RawAsset) : JSNum :=
  assets.foldl (fun sum a => sum + a.size.getD 0) 0

def assetGzipSum (assets : List RawAsset) : JSNum :=
  assets.foldl (fun sum a => sum + a.gzipSize.getD 0) 0

/-- `modules.reduce((sum, m) => sum + (m.size || 0), 0)` over the
top-level modules array. -/
def topModulesSizeSum (ms : List RawModule) : JSNum :=
  ms.foldl (fun sum m => sum + m.size.getD 0) 0

def topModulesGzipSum (ms : List RawModule) : JSNum :=
  ms.foldl (fun sum m => sum + m.gzipSize.getD 0) 0

/-- `m.name || 'unknown'` as `getTotalSize` reads a nested chunk module:
property access on a bare string yields `undefined`, so every bare-string
entry reads as name `"unknown"`. -/
def cmName (m : RawChunkModule) : String :=
  match m with
  | RawChunkModule.str _ => "unknown"
  | RawChunkModule.obj n _ _ _ => jsOrStr n ("unknown")

/-- `m.size || 0` as `getTotalSize` reads a nested chunk module. -/
def cmSize (m : RawChunkModule) : JSNum :=
  match m with
  | RawChunkModule.str _ => 0
  | RawChunkModule.obj _ s _ _ => s.getD 0

def cmGzip (m : RawChunkModule) : JSNum :=
  match m with
  | RawChunkModule.str _ => 0
  | RawChunkModule.obj _ _ g _ => g.getD 0

/-- One step of the `seenModules` dedup loop: count a module name only
the first time it is seen, at the size of that first occurrence. -/
def dedupStep (acc : List String × JSNum) (nm : String) (sz : JSNum) :
    List String × JSNum :=
  if nm ∈ acc.1 then acc else (acc.1 ++ [nm], acc.2 + sz)

/-- The `seenModules` loop of `getTotalSize` (lines 311–326): each module
name counted once, at its first-seen size. -/
def chunkDedupSizeSum (chunks : List RawChunk) : JSNum :=
  (chunks.foldl (fun acc c =>
    match c.modules with
    | some ms => ms.foldl (fun a m => dedupStep a (cmName m) (cmSize m)) acc
    | none => acc) ([], 0)).2

/-- The analogous loop of `getTotalGzipSize` (lines 354–368). -/
def chunkDedupGzipSum (chunks : List RawChunk) : JSNum :=
  (chunks.foldl (fun acc c =>
    match c.modules with
    | some ms => ms.foldl (fun a m => dedupStep a (cmName m) (cmGzip m)) acc
    | none => acc) ([], 0)).2

/-- `chunks.reduce((sum, c) => sum + (c.size || 0), 0)`. -/
def chunkSizeSum (chunks : List RawChunk) : JSNum :=
  chunks.foldl (fun sum c => sum + c.size.getD 0) 0

def chunkGzipSum (chunks : List RawChunk) : JSNum :=
  chunks.foldl (fun sum c => sum + c.gzipSize.getD 0) 0

/-- The chunk-based fallbacks of `getTotalSize` (lines 310–337): the
deduplicated per-chunk module sum if positive, else the chunk sum if
positive, else the fall-through `return assetSize` (which is `0` on this
path). -/
def getTotalSizeFallback (raw : RawStats) : JSNum :=
  let chunks := raw.chunks.getD []
  let moduleSize := chunkDedupSizeSum chunks
  if 0 < moduleSize then moduleSize
  else
    let chunkSize := chunkSizeSum chunks
    if 0 < chunkSize then chunkSize else 0

/-- `getTotalSize` (lines 299–340).  Note the top-level modules branch
`return`s its sum unconditionally when the array is non-empty. -/
def getTotalSize (raw : RawStats) : JSNum :=
  let assetSize := assetSizeSum (raw.assets.getD [])
  if assetSize = 0 then
    match raw.modules with
    | some ms =>
      if 0 < ms.length then topModulesSizeSum ms else getTotalSizeFallback raw
    | none => getTotalSizeFallback raw
  else assetSize

/-- The chunk-based fallbacks of `getTotalGzipSize` (lines 353–376); the
final chunk-gzip sum is returned without a positivity guard. -/
def getTotalGzipSizeFallback (raw : RawStats) : JSNum :=
  let chunks := raw.chunks.getD []
  let moduleGzipSize := chunkDedupGzipSum chunks
  if 0 < moduleGzipSize then moduleGzipSize else chunkGzipSum chunks

/-- `getTotalGzipSize` (lines 342–379). -/
def getTotalGzipSize (raw : RawStats) : JSNum :=
  let assetGzipSize := assetGzipSum (raw.assets.getD [])
  if assetGzipSize = 0 then
    match raw.modules with
    | some ms =>
      if 0 < ms.length then topModulesGzipSum ms else getTotalGzipSizeFallback raw
    | none => getTotalGzipSizeFallback raw
  else assetGzipSize

/-! ## Module/chunk extraction (`extractBundleStats`) -/

/-- Name of a nested chunk module as `extractBundleStats` reads it
(lines 229–241): a bare string is its own name. -/
def ebName (m : RawChunkModule) : String :=
  match m with
  | RawChunkModule.str s => s
  | RawChunkModule.obj n _ _ _ => jsOrStr n ("unknown")

def ebSize (m : RawChunkModule) : JSNum :=
  match m with
  | RawChunkModule.str _ => 0
  | RawChunkModule.obj _ s _ _ => s.getD 0

def ebGzip (m : RawChunkModule) : Option JSNum :=
  match m with
  | RawChunkModule.str _ => none
  | RawChunkModule.obj _ _ g _ => g

/-- For a bare string the code sets `moduleReasons = []` (an array); for
an object it takes `m.reasons` as-is (possibly `undefined`). -/
def ebReasons (m : RawChunkModule) : Option (List RawReason) :=
  match m with
  | RawChunkModule.str _ => some []
  | RawChunkModule.obj _ _ _ r => r

/-- The gzip merge of lines 258–260: only a truthy incoming value is
merged; `Math.max` applies only when the existing value is truthy too. -/
def mergeGzip (existing incoming : Option JSNum) : Option JSNum :=
  if jsTruthy incoming then
    if jsTruthy existing then some (max (existing.getD 0) (incoming.getD 0))
    else incoming
  else existing

/-- The reasons merge of lines 262–269: `new Set(existing)` then add each
truthy (non-empty) incoming reason string. -/
def mergeReasons (existing : List String) (o : Option (List RawReason)) :
    List String :=
  match o with
  | some l =>
    if 0 < l.length then
      l.foldl (fun acc r =>
        let s := reasonToStr r
        if s = "" then acc else insertUnique acc s) (jsSetFrom existing)
    else existing
  | none => existing

/-- One `moduleMap` step (lines 243–270): first occurrence of a name
creates the entry; a later occurrence updates it in place with
`size = max(existing, new)` and the gzip/reasons merges. -/
def upsertModule : List ModuleInfo → RawChunkModule → List ModuleInfo
  | [], m =>
    [{ name := ebName m, size := ebSize m, gzipSize := ebGzip m,
       percentage := 0, reasons := reasonsToStrs (ebReasons m) }]
  | x :: rest, m =>
    if x.name = ebName m then
      { x with size := max x.size (ebSize m),
               gzipSize := mergeGzip x.gzipSize (ebGzip m),
               reasons := mergeReasons x.reasons (ebReasons m) } :: rest
    else x :: upsertModule rest m

/-- The chunk traversal of lines 220–275 producing
`Array.from(moduleMap.values())`. -/
def chunkModulesFold (chunks : List RawChunk) : List ModuleInfo :=
  chunks.foldl (fun acc c =>
    match c.modules with
    | some ms => ms.foldl upsertModule acc
    | none => acc) []

/-- The flat-schema mapping of lines 206–214. -/
def rawModuleInfo (m : RawModule) : ModuleInfo :=
  { name := jsOrStr m.name ("unknown")
    size := m.size.getD 0
    gzipSize := m.gzipSize
    percentage := 0
    reasons := reasonsToStrs m.reasons }

/-- Lines 202–276: the flat top-level `modules` array is used directly
when non-empty, otherwise modules are merged out of the chunks. -/
def extractModules (raw : RawStats) : List ModuleInfo :=
  match raw.modules with
  | some ms =>
    if 0 < ms.length then ms.map rawModuleInfo
    else chunkModulesFold (raw.chunks.getD [])
  | none => chunkModulesFold (raw.chunks.getD [])

def chunkIdToString (id : ChunkId) : String :=
  match id with
  | ChunkId.str s => s
  | ChunkId.num n => toString n

/-- `extractChunks` (lines 381–389). -/
def extractChunks (raw : RawStats) : List ChunkInfo :=
  (raw.chunks.getD []).map (fun c =>
    { id := c.id
      name := jsOrStr c.name ("chunk-" ++ chunkIdToString c.id)
      size := c.size.getD 0
      gzipSize := c.gzipSize
      modules :=
        match c.modules with
        | some ms => ms.map (fun m =>
            match m with
            | RawChunkModule.str _ => none
            | RawChunkModule.obj n _ _ _ => n)
        | none => [] })

/-- `getInitialBundleSize` (lines 391–395). -/
def getInitialBundleSize (raw : RawStats) : JSNum :=
  ((raw.chunks.getD []).filter (fun c => c.initial = some true)).foldl
    (fun sum c => sum + c.size.getD 0) 0

/-- `extractBundleStats` (lines 198–297). -/
def extractBundleStats (raw : RawStats) : BundleStats :=
  let assets := raw.assets.getD []
  let modules0 := extractModules raw
  let totalSize := jsOrNum (getTotalSize raw) (qsum (modules0.map (fun m => m.size)))
  let modules1 := modules0.map (fun m =>
    { m with percentage := if 0 < totalSize then m.size / totalSize * 100 else 0 })
  { name := jsOrStr raw.name ("bundle")
    size := totalSize
    gzipSize := jsOrNum (getTotalGzipSize raw)
      (qsum (modules1.map (fun m => m.gzipSize.getD 0)))
    modules := sortDescBy (fun m => m.size) modules1
    chunks := extractChunks raw
    isInitialBySize := getInitialBundleSize raw
    isInitialByCount := assets.length
    parsedSize := raw.parsedSize.getD 0 }

/-! ## Package-name inference (`extractPackageName`) -/

def isSep (c : Char) : Bool := c == '/' || c == '\\'

/-- The regex capture `(@[^/\\]+[/\\][^/\\]+|[^/\\]+)` tried at the
position right after `node_modules[/\\]`, with the captured separator
normalized to `/` (the `.replace(/[/\\]/g, '/')` of line 479). -/
def captureAt (rest : List Char) : Option (List Char) :=
  let seg1 := rest.takeWhile (fun c => ¬ isSep c)
  let scopedPkg :=
    match rest with
    | '@' :: _ =>
      if 2 ≤ seg1.length then
        match rest.drop seg1.length with
        | c :: rest2 =>
          if isSep c then
            let seg2 := rest2.takeWhile (fun d => ¬ isSep d)
            if 0 < seg2.length then some (seg1 ++ '/' :: seg2) else none
          else none
        | [] => none
      else none
    | _ => none
  match scopedPkg with
  | some r => some r
  | none => if 0 < seg1.length then some seg1 else none

/-- Try the whole regex `node_modules[/\\](...)` at one start position. -/
def pkgAt (cs : List Char) : Option (List Char) :=
  if cs.take 12 = ("node_modules").toList then
    match cs.drop 12 with
    | c :: rest => if isSep c then captureAt rest else none
    | [] => none
  else none

/-- Leftmost regex match: scan every start position in order. -/
def scanNodeModules : List Char → Option (List Char)
  | [] => none
  | c :: rest =>
    match pkgAt (c :: rest) with
    | some r => some r
    | none => scanNodeModules rest

/-- `path.basename` with POSIX rules (the runtime treats only `/` as a
separator): drop trailing slashes, then take what follows the last one. -/
def posixBasename (s : String) : String :=
  let rev := s.toList.reverse.dropWhile (fun c => c == '/')
  String.mk ((rev.takeWhile (fun c => ¬ c == '/')).reverse)

/-- `extractPackageName` (lines 473–485): `null` only for empty input,
the `node_modules` package id when the regex matches, else the basename. -/
def extractPackageName (modulePath : String) : Option String :=
  if modulePath = "" then none
  else
    match scanNodeModules modulePath.toList with
    | some r => some (String.mk r)
    | none => some (posixBasename modulePath)

/-! ## Duplicate detection (`findDuplicates`) -/

/-- The grouping key of lines 493–494: `extractPackageName(name) || 'unknown'`
(`null` and the empty string are both falsy). -/
def dupKey (m : ModuleInfo) : String :=
  jsOrStr (extractPackageName m.name) ("unknown")

/-- Build one emitted group (lines 509–515). -/
def mkDuplicate (mods : List ModuleInfo) : DuplicateModule :=
  let totalSize := qsum (mods.map (fun m => m.size))
  { names := mods.map (fun m => m.name)
    totalSize := totalSize
    savings := totalSize - listMin (mods.map (fun m => m.size)) }

/-- The `packageMap.forEach` body of lines 503–518: a group is pushed
only when it has more than one member and more than one distinct full
name. -/
def dupEmitStep (acc : List DuplicateModule) (kv : String × List ModuleInfo) :
    List DuplicateModule :=
  if 1 < kv.2.length then
    if 1 < (jsSetFrom (kv.2.map (fun m => m.name))).length then
      acc ++ [mkDuplicate kv.2]
    else acc
  else acc

/-- `findDuplicates` (lines 487–521). -/
def findDuplicates (stats : BundleStats) : List DuplicateModule :=
  let packageMap := stats.modules.foldl (fun acc m =>
    mapUpsert acc (dupKey m) (fun o => o.getD [] ++ [m]))
    ([] : List (String × List ModuleInfo))
  let duplicates := packageMap.foldl dupEmitStep []
  (sortDescBy (fun d => d.totalSize) duplicates).take 10

/-! ## Package grouping (`analyzePackages`) -/

structure PkgAcc where
  modules : List ModuleInfo
  totalGzip : JSNum
deriving DecidableEq, Repr

/-- `analyzePackages` (lines 523–558). -/
def analyzePackages (stats : BundleStats) : List PackageStats :=
  let bundleTotalSize := stats.size
  let packageMap := stats.modules.foldl (fun acc m =>
    match extractPackageName m.name with
    | none => acc
    | some p =>
      if p = "" then acc
      else mapUpsert acc p (fun o =>
        let pkg := o.getD { modules := [], totalGzip := 0 }
        { modules := pkg.modules ++ [m]
          totalGzip :=
            if jsTruthy m.gzipSize then pkg.totalGzip + m.gzipSize.getD 0
            else pkg.totalGzip })) ([] : List (String × PkgAcc))
  let packages := packageMap.foldl (fun acc kv =>
    let packageTotalSize := qsum (kv.2.modules.map (fun m => m.size))
    acc ++ [{ name := kv.1
              totalSize := packageTotalSize
              gzipSize := if 0 < kv.2.totalGzip then some kv.2.totalGzip else none
              moduleCount := kv.2.modules.length
              modules := kv.2.modules.map (fun m => m.name)
              percentage :=
                if 0 < bundleTotalSize then packageTotalSize / bundleTotalSize * 100
                else 0 }]) ([] : List PackageStats)
  (sortDescBy (fun p => p.totalSize) packages).take 20

/-! ## Tree-shaking heuristic (`detectTreeshakingIssues`) -/

/-- Substring containment on character lists (JS `String.includes`). -/
def hasSubstr (sub : List Char) : List Char → Bool
  | [] => sub.isEmpty
  | c :: rest => List.isPrefixOf sub (c :: rest) || hasSubstr sub rest

def strIncludes (s sub : String) : Bool :=
  hasSubstr sub.toList s.toList

/-- `detectTreeshakingIssues` (lines 447–464).  The source text lookup
only ever succeeds for flat top-level modules. -/
def detectTreeshakingIssues (raw : RawStats) (stats : BundleStats) : List String :=
  let issues := stats.modules.foldl (fun acc m =>
    let originalModule : Option RawModule :=
      match raw.modules with
      | some ms => ms.find? (fun om => om.name = some m.name)
      | none => none
    match originalModule with
    | some om =>
      match om.source with
      | some src =>
        if strIncludes src ("module.exports") || strIncludes src ("require(") then
          acc ++ [m.name ++ ": Uses CommonJS - reduces tree-shaking effectiveness"]
        else acc
      | none => acc
    | none => acc) ([] : List String)
  issues.take 10

/-! ## Unused-module heuristic (`detectUnusedModules`) -/

/-- ASCII whitespace for the `[^\s]` character class. -/
def isWs (c : Char) : Bool :=
  c == ' ' || c == '\t' || c == '\n' || c == '\r' || c == '\x0b' || c == '\x0c'

/-- The alternation `(js|ts|jsx|tsx)` matched as a prefix, branches tried
in source order (so `js` shadows `jsx`, `ts` shadows `tsx`). -/
def extMatchLen (cs : List Char) : Option Nat :=
  if List.isPrefixOf (['j', 's']) cs then some 2
  else if List.isPrefixOf (['t', 's']) cs then some 2
  else if List.isPrefixOf (['j', 's', 'x']) cs then some 3
  else if List.isPrefixOf (['t', 's', 'x']) cs then some 3
  else none

/-- Greedy backtracking for `[^\s]+\.(js|ts|jsx|tsx)` at one start
position: try consuming `k` non-space characters, largest `k` first, then
require a literal `.` and an extension. -/
def tokenAtWith : Nat → List Char → Option (List Char)
  | 0, _ => none
  | Nat.succ k, cs =>
    match cs.drop (Nat.succ k) with
    | '.' :: rest =>
      (match extMatchLen rest with
       | some e => some (cs.take (Nat.succ k + 1 + e))
       | none => tokenAtWith k cs)
    | _ => tokenAtWith k cs

def tokenAt (cs : List Char) : Option (List Char) :=
  tokenAtWith (cs.takeWhile (fun c => ¬ isWs c)).length cs

/-- Leftmost match of `([^\s]+\.(js|ts|jsx|tsx))` (line 571). -/
def firstFileToken : List Char → Option (List Char)
  | [] => none
  | c :: rest =>
    match tokenAt (c :: rest) with
    | some t => some t
    | none => firstFileToken rest

/-- `detectUnusedModules` (lines 560–608). -/
def detectUnusedModules (stats : BundleStats) : List UnusedModule :=
  let importedModules := stats.modules.foldl (fun acc m =>
    m.reasons.foldl (fun acc2 reason =>
      if reason ≠ "entry" ∧ reason ≠ "cjs require" then
        match firstFileToken reason.toList with
        | some t => insertUnique acc2 (String.mk t)
        | none => acc2
      else acc2) acc) []
  let unused := stats.modules.foldl (fun acc m =>
    let isEntry := m.reasons.any (fun r => r = "entry" || strIncludes r ("entry"))
    let isImported := m.name ∈ importedModules
    if ¬isEntry ∧ ¬isImported ∧ 0 < m.size then
      let inChunk := stats.chunks.any (fun chunk => chunk.modules.contains (some m.name))
      if inChunk then
        acc ++ [{ name := jsOrStr (some m.name) ("unknown")
                  size := m.size
                  reason := "Module in bundle but no clear import path detected" }]
      else acc
    else acc) []
  (sortDescBy (fun u => u.size) unused).take 20

/-! ## Chunk analysis (`analyzeChunks`) -/

/-- The four advisory strings, with their interpolated numbers carried as
structured payloads. -/
inductive ChunkAdvisory where
  | largeAverage (kb : JSNum)
  | manySmallChunks (count : Nat)
  | largeInitial (kb : JSNum)
  | imbalance (ratio : JSNum)
deriving DecidableEq, Repr

structure ChunkAnalysis where
  averageChunkSize : JSNum
  averageModulesPerChunk : JSNum
  largestChunk : ChunkInfo
  smallestChunk : ChunkInfo
  initialChunkSize : JSNum
  recommendations : List ChunkAdvisory
deriving DecidableEq, Repr

/-- `{ id: 0, name: 'N/A', size: 0, modules: [] }`. -/
def defaultChunkInfo : ChunkInfo :=
  { id := ChunkId.num 0, name := "N/A", size := 0, gzipSize := none, modules := [] }

/-- The zero-chunk result of lines 612–621. -/
def emptyChunkAnalysis : ChunkAnalysis :=
  { averageChunkSize := 0
    averageModulesPerChunk := 0
    largestChunk := defaultChunkInfo
    smallestChunk := defaultChunkInfo
    initialChunkSize := 0
    recommendations := [] }

/-- `analyzeChunks` (lines 610–672).  `ChunkInfo` carries no `initial`
field, so the `'initial' in chunkInfo` test of line 638 is false for
every chunk and the `initialChunks` filter keeps nothing. -/
def analyzeChunks (stats : BundleStats) : ChunkAnalysis :=
  let chunks := stats.chunks
  if chunks.length = 0 then emptyChunkAnalysis
  else
    let totalChunkSize := qsum (chunks.map (fun c => c.size))
    let averageChunkSize :=
      if 0 < chunks.length then totalChunkSize / (chunks.length : JSNum) else 0
    let totalModules : Nat :=
      (chunks.map (fun c => c.modules.length)).foldl (fun a b => a + b) 0
    let averageModulesPerChunk :=
      if 0 < chunks.length then (totalModules : JSNum) / (chunks.length : JSNum) else 0
    let sortedBySize := sortDescBy (fun c => c.size) chunks
    let largestChunk := sortedBySize.head?.getD defaultChunkInfo
    let smallestChunk := sortedBySize.getLast?.getD defaultChunkInfo
    let initialChunks := chunks.filter (fun c =>
      match stats.chunks.find? (fun ch => ch.id == c.id) with
      | some _ => false
      | none => false)
    let initialChunkSize := initialChunks.foldl (fun sum c => sum + c.size) 0
    let recommendations :=
      (if 500000 < averageChunkSize then [ChunkAdvisory.largeAverage (averageChunkSize / 1024)]
       else [])
      ++ (if 20 < chunks.length ∧ averageChunkSize < 50000 then
            [ChunkAdvisory.manySmallChunks chunks.length]
          else [])
      ++ (if 500000 < initialChunkSize then [ChunkAdvisory.largeInitial (initialChunkSize / 1024)]
          else [])
      ++ (if 0 < smallestChunk.size ∧ smallestChunk.size * 10 < largestChunk.size then
            [ChunkAdvisory.imbalance (largestChunk.size / smallestChunk.size)]
          else [])
    { averageChunkSize := averageChunkSize
      averageModulesPerChunk := averageModulesPerChunk
      largestChunk := largestChunk
      smallestChunk := smallestChunk
      initialChunkSize := initialChunkSize
      recommendations := recommendations }

/-! ## Metrics (`calculateMetrics`) -/

/-- JS `Math.round`: round half toward positive infinity. -/
def jsMathRound (q : JSNum) : Int :=
  Rat.floor (q + 1 / 2)

/-- `calculateMetrics` (lines 674–696). -/
def calculateMetrics (stats : BundleStats) : BundleMetrics :=
  let sizes := stats.modules.map (fun m => m.size)
  let averageSize := if 0 < sizes.length then qsum sizes / (sizes.length : JSNum) else 0
  let gzipSize := stats.gzipSize
  { totalSize := stats.size
    totalGzipSize := gzipSize
    totalBrotliSize :=
      if 0 < gzipSize then some (jsMathRound (gzipSize * (83 / 100))) else none
    moduleCount := stats.modules.length
    chunkCount := stats.chunks.length
    largestModule := stats.modules.head?.getD
      { name := "N/A", size := 0, gzipSize := some 0, percentage := 0, reasons := [] }
    averageModuleSize := averageSize }

/-! ## Recommendations (`generateRecommendations`) -/

/-- The five recommendation rules; the numbers interpolated into the
message strings are carried as structured payloads. -/
inductive Recommendation where
  | bundleSizeCritical (mb : JSNum)
  | bundleSizeWarning (mb : JSNum)
  | largeModules (count : Nat)
  | duplicateModulesWarning (count : Nat) (totalKB : JSNum)
  | highModuleCount (count : Nat)
deriving DecidableEq, Repr

/-- `generateRecommendations` (lines 397–445): the duplicates rule
re-derives duplicates from the same stats via `findDuplicates`. -/
def generateRecommendations (stats : BundleStats) : List Recommendation :=
  (if stats.gzipSize ≠ 0 ∧ 500000 < stats.gzipSize then
     [Recommendation.bundleSizeCritical (stats.gzipSize / 1024 / 1024)]
   else if stats.gzipSize ≠ 0 ∧ 250000 < stats.gzipSize then
     [Recommendation.bundleSizeWarning (stats.gzipSize / 1024 / 1024)]
   else [])
  ++ (if 0 < (stats.modules.filter (fun m => 5 < m.percentage)).length then
        [Recommendation.largeModules (stats.modules.filter (fun m => 5 < m.percentage)).length]
      else [])
  ++ (if 0 < (findDuplicates stats).length then
        [Recommendation.duplicateModulesWarning (findDuplicates stats).length
          (qsum ((findDuplicates stats).map (fun d => d.totalSize)) / 1024)]
      else [])
  ++ (if 500 < stats.modules.length then
        [Recommendation.highModuleCount stats.modules.length]
      else [])

/-! ## The whole pipeline (`analyze`) -/

structure AnalysisResult where
  bundleStats : BundleStats
  recommendations : List Recommendation
  treeshakingIssues : List String
  duplicates : List DuplicateModule
  packages : List PackageStats
  chunkAnalysis : ChunkAnalysis
  unusedModules : List UnusedModule
  metrics : BundleMetrics
  timestamp : String
deriving DecidableEq, Repr

/-- `analyze` (lines 159–196), with the wall-clock timestamp passed in. -/
def analyze (raw : RawStats) (timestamp : String) : AnalysisResult :=
  let bundleStats := extractBundleStats raw
  { bundleStats := bundleStats
    recommendations := generateRecommendations bundleStats
    treeshakingIssues := detectTreeshakingIssues raw bundleStats
    duplicates := findDuplicates bundleStats
    packages := analyzePackages bundleStats
    chunkAnalysis := analyzeChunks bundleStats
    unusedModules := detectUnusedModules bundleStats
    metrics := calculateMetrics bundleStats
    timestamp := timestamp }

end Packlyze

/-! # Concrete inputs used by counterexamples and witnesses -/

namespace Packlyze

/-- Two chunks, each containing the same module name `"a"`, with sizes
`s1` and `s2`; no assets and no top-level modules array. -/
def twoChunkRaw (s1 s2 : JSNum) : RawStats :=
  { chunks := some
      [ { id := ChunkId.num 1,
          modules := some [RawChunkModule.obj (some "a") (some s1) none none] },
        { id := ChunkId.num 2,
          modules := some [RawChunkModule.obj (some "a") (some s2) none none] } ] }

/-- A non-empty top-level modules array summing to zero next to a chunk
of size 50. -/
def c2Raw : RawStats :=
  { modules := some [{ name := some "a", size := some 0 }],
    chunks := some [{ id := ChunkId.num 1, size := some 50 }] }

/-- A single asset of size 5 and a module, for exercising the asset
branch of the total-size chain. -/
def c2wRaw : RawStats :=
  { assets := some [{ size := some 5 }],
    modules := some [{ name := some "a", size := some 3 }] }

/-- Assets totalling 100 next to a single module of size 10. -/
def c3Raw : RawStats :=
  { assets := some [{ size := some 100 }],
    modules := some [{ name := some "a", size := some 10 }] }

/-- Two modules whose sizes sum exactly to the derived total. -/
def c3wRaw : RawStats :=
  { modules := some [{ name := some "a", size := some 30 },
                     { name := some "b", size := some 70 }] }

/-- The canonical module of size 30 produced from `c3wRaw`. -/
def c4wModule : ModuleInfo :=
  { name := "a", size := 30, gzipSize := none, percentage := 30, reasons := [] }

/-- Assets totalling 10 next to a single module of size 100. -/
def c4Raw : RawStats :=
  { assets := some [{ size := some 10 }],
    modules := some [{ name := some "a", size := some 100 }] }

/-- A flat top-level modules array repeating the name `"a"`. -/
def c5Raw : RawStats :=
  { modules := some [{ name := some "a", size := some 1 },
                     { name := some "a", size := some 2 }] }

/-- A document with one build error and otherwise valid content. -/
def c6wRaw : RawStats :=
  { errors := some [{ message := some "boom" }],
    assets := some [{ size := some 1000 }] }

/-- A document whose only content is a non-empty chunks array with no
nested module lists. -/
def c7Raw : RawStats :=
  { chunks := some [{ id := ChunkId.num 1, size := some 50 }] }

/-- Two source files with the same basename under different directories. -/
def dupStats : BundleStats :=
  { name := "b", size := 8, gzipSize := 0,
    modules :=
      [ { name := "x/h.js", size := 5, gzipSize := none, percentage := 0, reasons := [] },
        { name := "y/h.js", size := 3, gzipSize := none, percentage := 0, reasons := [] } ],
    chunks := [], isInitialBySize := 0, isInitialByCount := 0, parsedSize := 0 }

/-- The duplicate group emitted for `dupStats`. -/
def dupGroup : DuplicateModule :=
  { names := ["x/h.js", "y/h.js"], totalSize := 8, savings := 5 }

/-- A stats value with no chunks at all. -/
def noChunkStats : BundleStats :=
  { name := "b", size := 0, gzipSize := 0, modules := [], chunks := [],
    isInitialBySize := 0, isInitialByCount := 0, parsedSize := 0 }

/-- A stats value whose single chunk has size zero. -/
def zeroChunkStats : BundleStats :=
  { name := "b", size := 0, gzipSize := 0, modules := [],
    chunks := [{ id := ChunkId.num 1, name := "c", size := 0, gzipSize := none,
                 modules := [] }],
    isInitialBySize := 0, isInitialByCount := 0, parsedSize := 0 }

/-- A raw document whose extraction yields a duplicate basename group. -/
def c10wRaw : RawStats :=
  { modules := some [{ name := some "x/h.js", size := some 5 },
                     { name := some "y/h.js", size := some 3 }] }

end Packlyze

/-! # Helper lemmas -/

namespace Packlyze

theorem insertDescBy_perm (key : α → JSNum) (x : α) (l : List α) :
    (insertDescBy key x l).Perm (x :: l) := by
  induction l with
  | nil => simp [insertDescBy]
  | cons y ys ih =>
    simp only [insertDescBy]
    split
    · exact List.Perm.refl _
    · exact (ih.cons y).trans (List.Perm.swap x y ys)

theorem sortDescBy_perm (key : α → JSNum) (l : List α) :
    (sortDescBy key l).Perm l := by
  have h : ∀ (l acc : List α),
      (l.foldl (fun a x => insertDescBy key x a) acc).Perm (acc ++ l) := by
    intro l
    induction l with
    | nil => intro acc; simp
    | cons x xs ih =>
      intro acc
      have h1 : ((x :: xs).foldl (fun a x => insertDescBy key x a) acc) =
          xs.foldl (fun a x => insertDescBy key x a) (insertDescBy key x acc) := rfl
      rw [h1]
      refine (ih _).trans ?_
      refine (List.Perm.append_right xs (insertDescBy_perm key x acc)).trans ?_
      exact List.perm_middle.symm
  simpa using h l []

theorem mem_sortDescBy {key : α → JSNum} {x : α} {l : List α} :
    x ∈ sortDescBy key l ↔ x ∈ l :=
  (sortDescBy_perm key l).mem_iff

theorem insertDescBy_pairwise (key : α → JSNum) (x : α) {l : List α}
    (h : List.Pairwise (fun a b => key b ≤ key a) l) :
    List.Pairwise (fun a b => key b ≤ key a) (insertDescBy key x l) := by
  induction l with
  | nil => simp [insertDescBy]
  | cons y ys ih =>
    rw [List.pairwise_cons] at h
    obtain ⟨hy, hys⟩ := h
    simp only [insertDescBy]
    split
    · next hlt =>
      rw [List.pairwise_cons]
      refine ⟨?_, List.pairwise_cons.mpr ⟨hy, hys⟩⟩
      intro b hb
      rcases List.mem_cons.mp hb with hb | hb
      · exact hb ▸ le_of_lt hlt
      · exact (hy b hb).trans (le_of_lt hlt)
    · next hge =>
      rw [List.pairwise_cons]
      refine ⟨?_, ih hys⟩
      intro b hb
      have hb2 := (insertDescBy_perm key x ys).mem_iff.mp hb
      rcases List.mem_cons.mp hb2 with hb2 | hb2
      · exact hb2 ▸ le_of_not_lt hge
      · exact hy b hb2

theorem sortDescBy_pairwise (key : α → JSNum) (l : List α) :
    List.Pairwise (fun a b => key b ≤ key a) (sortDescBy key l) := by
  have h : ∀ (l acc : List α),
      List.Pairwise (fun a b => key b ≤ key a) acc →
      List.Pairwise (fun a b => key b ≤ key a)
        (l.foldl (fun a x => insertDescBy key x a) acc) := by
    intro l
    induction l with
    | nil => intro acc hacc; exact hacc
    | cons x xs ih =>
      intro acc hacc
      exact ih _ (insertDescBy_pairwise key x hacc)
  exact h l [] List.Pairwise.nil

theorem qsum_eq_sum (l : List JSNum) : qsum l = l.sum := by
  rw [List.sum_eq_foldl]; rfl

theorem qsum_map_perm {l1 l2 : List α} (f : α → JSNum) (h : l1.Perm l2) :
    qsum (l1.map f) = qsum (l2.map f) := by
  rw [qsum_eq_sum, qsum_eq_sum]
  exact (h.map f).sum_eq

theorem qsum_map_div_mul (l : List ModuleInfo) (t : JSNum) :
    qsum (l.map (fun m => m.size / t * 100)) =
      qsum (l.map (fun m => m.size)) / t * 100 := by
  rw [qsum_eq_sum, qsum_eq_sum]
  simp only [div_eq_mul_inv, mul_assoc]
  exact List.sum_map_mul_right l (fun m => m.size) _

end Packlyze

namespace Packlyze

theorem extract_size_def (raw : RawStats) :
    (extractBundleStats raw).size =
      jsOrNum (getTotalSize raw)
        (qsum ((extractModules raw).map (fun m => m.size))) := rfl

theorem extract_modules_def (raw : RawStats) :
    (extractBundleStats raw).modules =
      sortDescBy (fun m => m.size)
        ((extractModules raw).map (fun m =>
          { m with percentage :=
              if 0 < (extractBundleStats raw).size
              then m.size / (extractBundleStats raw).size * 100 else 0 })) := rfl

theorem extract_percentage {raw : RawStats} {m : ModuleInfo}
    (hm : m ∈ (extractBundleStats raw).modules) :
    m.percentage =
      if 0 < (extractBundleStats raw).size
      then m.size / (extractBundleStats raw).size * 100 else 0 := by
  rw [extract_modules_def] at hm
  have hmem := mem_sortDescBy.mp hm
  rcases List.mem_map.mp hmem with ⟨m0, hm0, rfl⟩
  rfl

theorem upsertModule_names (l : List ModuleInfo) (m : RawChunkModule) :
    (upsertModule l m).map (fun x => x.name) =
      if ebName m ∈ l.map (fun x => x.name) then l.map (fun x => x.name)
      else l.map (fun x => x.name) ++ [ebName m] := by
  induction l with
  | nil => simp [upsertModule]
  | cons x rest ih =>
    simp only [upsertModule, List.map_cons]
    split
    · next h =>
      have hmem : ebName m ∈ x.name :: rest.map (fun x => x.name) := by
        simp [← h]
      rw [if_pos hmem]
      simp
    · next h =>
      have hne : ¬ ebName m = x.name := fun hh => h hh.symm
      simp only [List.map_cons, ih]
      by_cases hm : ebName m ∈ rest.map (fun x => x.name)
      · rw [if_pos hm, if_pos (by simp [hm])]
      · rw [if_neg hm, if_neg (by simp [hne, hm])]
        simp

theorem upsertModule_names_nodup {l : List ModuleInfo} (m : RawChunkModule)
    (h : (l.map (fun x => x.name)).Nodup) :
    ((upsertModule l m).map (fun x => x.name)).Nodup := by
  rw [upsertModule_names]
  split
  · exact h
  · next hmem =>
    rw [← List.concat_eq_append]
    exact List.Nodup.concat hmem h

theorem foldl_upsertModule_names_nodup (ms : List RawChunkModule)
    {acc : List ModuleInfo} (h : (acc.map (fun x => x.name)).Nodup) :
    ((ms.foldl upsertModule acc).map (fun x => x.name)).Nodup := by
  induction ms generalizing acc with
  | nil => exact h
  | cons m rest ih => exact ih (upsertModule_names_nodup m h)

theorem chunkModulesFold_names_nodup (chunks : List RawChunk) :
    ((chunkModulesFold chunks).map (fun x => x.name)).Nodup := by
  have main : ∀ (cs : List RawChunk) (acc : List ModuleInfo),
      (acc.map (fun x => x.name)).Nodup →
      ((cs.foldl (fun acc c =>
          match c.modules with
          | some ms => ms.foldl upsertModule acc
          | none => acc) acc).map (fun x => x.name)).Nodup := by
    intro cs
    induction cs with
    | nil => intro acc h; exact h
    | cons c rest ih =>
      intro acc h
      have hstep : (((match c.modules with
          | some ms => ms.foldl upsertModule acc
          | none => acc) : List ModuleInfo).map (fun x => x.name)).Nodup := by
        match c.modules with
        | some ms => exact foldl_upsertModule_names_nodup ms h
        | none => exact h
      exact ih _ hstep
  exact main chunks [] (by simp)

end Packlyze

namespace Packlyze

/-- C6: a document with a non-empty `errors` array always fails
validation with `BuildFailed`, whatever else it contains, and the error
carries at most the first three error messages. -/
theorem c6_build_failed (raw : RawStats) (es : List RawError)
    (h1 : raw.errors = some es) (h2 : es ≠ []) :
    validateStats raw =
      Except.error (ValidationError.buildFailed es.length
        ((es.take 3).map (fun e => jsOrStr e.message ("Unknown error")))) ∧
    ((es.take 3).map (fun e => jsOrStr e.message ("Unknown error"))).length ≤ 3 := by
  constructor
  · have hlen : 0 < es.length := List.length_pos.mpr h2
    simp only [validateStats, h1, Option.getD_some, if_pos hlen]
  · rw [List.length_map, List.length_take]
    exact min_le_left _ _

/-- C6 witness: the concrete document `c6wRaw` (one build error, valid
assets) fails with `BuildFailed` carrying its single message. -/
theorem c6_build_failed_witness :
    validateStats c6wRaw =
      Except.error (ValidationError.buildFailed 1 ["boom"]) ∧ (1 : Nat) ≤ 3 := by
  have h := c6_build_failed c6wRaw [{ message := some ("boom") }] rfl (by simp)
  simpa [jsOrStr] using h

/-- C9: with zero chunks, chunk analysis returns the zero-valued result
with no recommendations; and the imbalance advisory is never emitted when
the smallest chunk's size is zero. -/
theorem c9_chunk_advisories (stats : BundleStats) :
    (stats.chunks = [] → analyzeChunks stats = emptyChunkAnalysis) ∧
    ((analyzeChunks stats).smallestChunk.size = 0 →
      ∀ q, ChunkAdvisory.imbalance q ∉ (analyzeChunks stats).recommendations) := by
  constructor
  · intro h
    simp [analyzeChunks, h]
  · intro h q hq
    by_cases hlen : stats.chunks.length = 0
    · rw [show analyzeChunks stats = emptyChunkAnalysis by
        simp [analyzeChunks, hlen]] at hq
      simp [emptyChunkAnalysis] at hq
    · simp only [analyzeChunks, if_neg hlen] at h hq
      simp only [List.mem_append] at hq
      rcases hq with ((hq | hq) | hq) | hq
      · split at hq <;> simp_all
      · split at hq <;> simp_all
      · split at hq <;> simp_all
      · rw [if_neg (by rw [h]; simp)] at hq
        simp at hq

end Packlyze

namespace Packlyze

/-- C2 counterexample: `c2Raw` has a zero asset sum, a non-empty
top-level modules array summing to zero, and a chunk sum of 50; the claim
says the chunk sum wins, but the resolved total — both the raw
`getTotalSize` and the extracted bundle size — is 0, not 50. -/
theorem c2_counterexample :
    validateStats c2Raw = Except.ok () ∧
    chunkSizeSum (c2Raw.chunks.getD []) = 50 ∧
    getTotalSize c2Raw = 0 ∧
    (extractBundleStats c2Raw).size = 0 ∧
    getTotalSize c2Raw ≠ chunkSizeSum (c2Raw.chunks.getD []) := by
  refine ⟨?_, ?_, ?_, ?_, ?_⟩
  · simp [validateStats, c2Raw]
  · simp [chunkSizeSum, c2Raw]
  · simp [getTotalSize, c2Raw, assetSizeSum, topModulesSizeSum]
  · simp [extract_size_def, getTotalSize, c2Raw, assetSizeSum, topModulesSizeSum,
      jsOrNum, extractModules, rawModuleInfo, qsum]
  · simp [getTotalSize, chunkSizeSum, c2Raw, assetSizeSum, topModulesSizeSum]

/-- C2 amended: the total is the asset sum if that is non-zero; otherwise,
if the top-level modules array is non-empty, its sum is returned even when
that sum is zero (the chunk fallbacks are not consulted); otherwise the
deduplicated per-chunk module sum if positive; otherwise the chunk sum if
positive; otherwise zero. -/
theorem c2_total_size_chain (raw : RawStats) :
    (assetSizeSum (raw.assets.getD []) ≠ 0 →
      getTotalSize raw = assetSizeSum (raw.assets.getD [])) ∧
    (∀ ms, assetSizeSum (raw.assets.getD []) = 0 → raw.modules = some ms →
      ms ≠ [] → getTotalSize raw = topModulesSizeSum ms) ∧
    (assetSizeSum (raw.assets.getD []) = 0 →
      (raw.modules = none ∨ raw.modules = some []) →
      0 < chunkDedupSizeSum (raw.chunks.getD []) →
      getTotalSize raw = chunkDedupSizeSum (raw.chunks.getD [])) ∧
    (assetSizeSum (raw.assets.getD []) = 0 →
      (raw.modules = none ∨ raw.modules = some []) →
      chunkDedupSizeSum (raw.chunks.getD []) ≤ 0 →
      0 < chunkSizeSum (raw.chunks.getD []) →
      getTotalSize raw = chunkSizeSum (raw.chunks.getD [])) ∧
    (assetSizeSum (raw.assets.getD []) = 0 →
      (raw.modules = none ∨ raw.modules = some []) →
      chunkDedupSizeSum (raw.chunks.getD []) ≤ 0 →
      chunkSizeSum (raw.chunks.getD []) ≤ 0 →
      getTotalSize raw = 0) := by
  refine ⟨?_, ?_, ?_, ?_, ?_⟩
  · intro h
    simp [getTotalSize, h]
  · intro ms h hms hne
    have hlen : 0 < ms.length := List.length_pos.mpr hne
    simp [getTotalSize, h, hms, hlen]
  · intro h hm hd
    rcases hm with hm | hm <;>
      simp [getTotalSize, getTotalSizeFallback, h, hm, hd]
  · intro h hm hd hc
    rcases hm with hm | hm <;>
      simp [getTotalSize, getTotalSizeFallback, h, hm, not_lt.mpr hd, hc]
  · intro h hm hd hc
    rcases hm with hm | hm <;>
      simp [getTotalSize, getTotalSizeFallback, h, hm, not_lt.mpr hd, not_lt.mpr hc]

/-- C2 witness: on `c2wRaw` the asset branch fires (sum 5), and on
`c2Raw` the non-empty top-level modules branch fires with sum 0. -/
theorem c2_total_size_chain_witness :
    getTotalSize c2wRaw = 5 ∧ getTotalSize c2Raw = 0 := by
  constructor
  · have h := (c2_total_size_chain c2wRaw).1 (by simp [c2wRaw, assetSizeSum])
    simpa [c2wRaw, assetSizeSum] using h
  · have h := (c2_total_size_chain c2Raw).2.1 [{ name := some ("a"), size := some 0 }]
      (by simp [c2Raw, assetSizeSum]) rfl (by simp)
    simpa [topModulesSizeSum] using h

end Packlyze

namespace Packlyze

theorem twoChunkRaw_eval (s1 s2 : JSNum) (h : 0 < s1) :
    extractModules (twoChunkRaw s1 s2) =
      [{ name := "a", size := max s1 s2, gzipSize := none, percentage := 0,
         reasons := [] }] ∧
    getTotalSize (twoChunkRaw s1 s2) = s1 := by
  constructor
  · simp [extractModules, twoChunkRaw, chunkModulesFold, upsertModule, ebName,
      ebSize, ebGzip, ebReasons, jsOrStr, mergeGzip, mergeReasons, jsTruthy,
      reasonsToStrs]
  · simp [getTotalSize, twoChunkRaw, assetSizeSum, getTotalSizeFallback,
      chunkDedupSizeSum, dedupStep, cmName, cmSize, jsOrStr, h]

/-- C1 counterexample: the module `"a"` appears in two chunks with sizes
100 (first) and 150 (second), with no assets and no top-level modules.
Its canonical size is the maximum 150, but the computed total bundle size
is 100 — the first-seen size, not the maximum. -/
theorem c1_counterexample :
    (extractBundleStats (twoChunkRaw 100 150)).modules.map (fun m => m.size) = [150] ∧
    (extractBundleStats (twoChunkRaw 100 150)).size = 100 ∧
    (extractBundleStats (twoChunkRaw 100 150)).size ≠ 150 := by
  have h := twoChunkRaw_eval 100 150 (by norm_num)
  have hts : (extractBundleStats (twoChunkRaw 100 150)).size = 100 := by
    rw [extract_size_def, h.1, h.2]
    simp [jsOrNum]
  refine ⟨?_, hts, by rw [hts]; norm_num⟩
  rw [extract_modules_def, h.1]
  simp [sortDescBy, insertDescBy, max_eq_right (by norm_num : (100 : JSNum) ≤ 150)]

/-- C1 amended: for a module appearing in two chunks with sizes `s1` then
`s2` (assets and top-level modules absent, `0 < s1`), the canonical
module's size is `max s1 s2`, but the computed total bundle size is `s1`,
the first occurrence's size — so the claim's 150 reaches the total only
when the 150-sized occurrence comes first. -/
theorem c1_max_vs_first (s1 s2 : JSNum) (h : 0 < s1) :
    (extractBundleStats (twoChunkRaw s1 s2)).modules.map (fun m => (m.name, m.size)) =
      [("a", max s1 s2)] ∧
    (extractBundleStats (twoChunkRaw s1 s2)).size = s1 := by
  have hev := twoChunkRaw_eval s1 s2 h
  have hts : (extractBundleStats (twoChunkRaw s1 s2)).size = s1 := by
    rw [extract_size_def, hev.1, hev.2]
    simp [jsOrNum, ne_of_gt h]
  refine ⟨?_, hts⟩
  rw [extract_modules_def, hev.1]
  simp [sortDescBy, insertDescBy]

/-- C1 witness: at sizes 150 (first) then 100, both the canonical module
size and the total are 150. -/
theorem c1_max_vs_first_witness :
    (extractBundleStats (twoChunkRaw 150 100)).modules.map (fun m => (m.name, m.size)) =
      [("a", 150)] ∧
    (extractBundleStats (twoChunkRaw 150 100)).size = 150 := by
  have h := c1_max_vs_first 150 100 (by norm_num)
  simpa [max_eq_left (by norm_num : (100 : JSNum) ≤ 150)] using h

end Packlyze

namespace Packlyze

/-- C3 counterexample: `c3Raw` passes validation, its total size 100 is
positive (derived from assets), yet the single module of size 10 gets
percentage 10 and the percentage sum is 10, nowhere near 100. -/
theorem c3_counterexample :
    validateStats c3Raw = Except.ok () ∧
    0 < (extractBundleStats c3Raw).size ∧
    qsum ((extractBundleStats c3Raw).modules.map (fun m => m.percentage)) = 10 ∧
    qsum ((extractBundleStats c3Raw).modules.map (fun m => m.percentage)) ≠ 100 := by
  have hts : (extractBundleStats c3Raw).size = 100 := by
    rw [extract_size_def]
    norm_num [getTotalSize, c3Raw, assetSizeSum, jsOrNum]
  have hmods : (extractBundleStats c3Raw).modules =
      [{ name := "a", size := 10, gzipSize := none, percentage := 10, reasons := [] }] := by
    rw [extract_modules_def]
    simp only [hts]
    simp [extractModules, c3Raw, rawModuleInfo, jsOrStr, reasonsToStrs,
      sortDescBy, insertDescBy]
  refine ⟨by norm_num [validateStats, c3Raw], by rw [hts]; norm_num, ?_, ?_⟩
  · rw [hmods]; norm_num [qsum]
  · rw [hmods]; norm_num [qsum]

/-- C3 amended: when the total size is zero every percentage is exactly
zero (and no division happens, so in particular nothing non-finite can
arise); when the total is positive the percentage sum equals
`(sum of module sizes) / totalSize * 100`, which is exactly 100 precisely
when the total equals the module-size sum — e.g. when the total was
derived from the modules themselves — and not in general. -/
theorem c3_percentage_sum (raw : RawStats) :
    ((extractBundleStats raw).size = 0 →
      ∀ m ∈ (extractBundleStats raw).modules, m.percentage = 0) ∧
    (0 < (extractBundleStats raw).size →
      qsum ((extractBundleStats raw).modules.map (fun m => m.percentage)) =
        qsum ((extractBundleStats raw).modules.map (fun m => m.size)) /
          (extractBundleStats raw).size * 100) ∧
    (0 < (extractBundleStats raw).size →
      qsum ((extractBundleStats raw).modules.map (fun m => m.size)) =
        (extractBundleStats raw).size →
      qsum ((extractBundleStats raw).modules.map (fun m => m.percentage)) = 100) := by
  have key : 0 < (extractBundleStats raw).size →
      qsum ((extractBundleStats raw).modules.map (fun m => m.percentage)) =
        qsum ((extractBundleStats raw).modules.map (fun m => m.size)) /
          (extractBundleStats raw).size * 100 := by
    intro ht
    rw [extract_modules_def]
    rw [qsum_map_perm _ (sortDescBy_perm _ _), qsum_map_perm _ (sortDescBy_perm _ _)]
    simp only [List.map_map, Function.comp, if_pos ht]
    exact qsum_map_div_mul _ _
  refine ⟨?_, key, ?_⟩
  · intro h m hm
    rw [extract_percentage hm, h]
    simp
  · intro ht hsum
    rw [key ht, hsum, div_self (ne_of_gt ht)]
    norm_num

/-- C3 witness: for `c3wRaw` the total (100) is the module-size sum, the
total is positive, and the percentage sum is exactly 100. -/
theorem c3_percentage_sum_witness :
    qsum ((extractBundleStats c3wRaw).modules.map (fun m => m.percentage)) = 100 := by
  have hts : (extractBundleStats c3wRaw).size = 100 := by
    rw [extract_size_def]
    norm_num [getTotalSize, c3wRaw, assetSizeSum, topModulesSizeSum, jsOrNum]
  have hsum : qsum ((extractBundleStats c3wRaw).modules.map (fun m => m.size)) =
      (extractBundleStats c3wRaw).size := by
    rw [hts, extract_modules_def, qsum_map_perm _ (sortDescBy_perm _ _)]
    simp only [List.map_map, Function.comp]
    norm_num [extractModules, c3wRaw, rawModuleInfo, qsum]
  exact (c3_percentage_sum c3wRaw).2.2 (by rw [hts]; norm_num) hsum

/-- C4 counterexample: `c4Raw` passes validation but its single module
(size 100 against an asset-derived total of 10) gets percentage 1000,
far outside `[0, 100]`. -/
theorem c4_counterexample :
    validateStats c4Raw = Except.ok () ∧
    (extractBundleStats c4Raw).modules.map (fun m => m.percentage) = [1000] ∧
    ¬ ((1000 : JSNum) ≤ 100) := by
  have hts : (extractBundleStats c4Raw).size = 10 := by
    rw [extract_size_def]
    norm_num [getTotalSize, c4Raw, assetSizeSum, jsOrNum]
  refine ⟨by norm_num [validateStats, c4Raw], ?_, by norm_num⟩
  rw [extract_modules_def]
  simp only [hts]
  simp [extractModules, c4Raw, rawModuleInfo, jsOrStr, reasonsToStrs,
    sortDescBy, insertDescBy]
  norm_num

/-- C4 amended: a canonical module's percentage is non-negative and at
most 100 whenever its size is non-negative and bounded by the computed
total; the bound can fail when the asset-derived total is smaller than a
module's size (see the counterexample). -/
theorem c4_percentage_range (raw : RawStats) :
    ∀ m ∈ (extractBundleStats raw).modules,
      0 ≤ m.size → m.size ≤ (extractBundleStats raw).size →
      0 ≤ m.percentage ∧ m.percentage ≤ 100 := by
  intro m hm h0 hle
  rw [extract_percentage hm]
  by_cases ht : 0 < (extractBundleStats raw).size
  · rw [if_pos ht]
    constructor
    · exact mul_nonneg (div_nonneg h0 (le_of_lt ht)) (by norm_num)
    · have h1 : m.size / (extractBundleStats raw).size ≤ 1 := (div_le_one ht).mpr hle
      calc m.size / (extractBundleStats raw).size * 100 ≤ 1 * 100 :=
            mul_le_mul_of_nonneg_right h1 (by norm_num)
        _ = 100 := by norm_num
  · rw [if_neg ht]
    norm_num

/-- C4 witness: the canonical module of size 30 from `c3wRaw` (total 100)
has its percentage, 30, inside `[0, 100]`. -/
theorem c4_percentage_range_witness :
    0 ≤ c4wModule.percentage ∧ c4wModule.percentage ≤ 100 := by
  have hts : (extractBundleStats c3wRaw).size = 100 := by
    rw [extract_size_def]
    norm_num [getTotalSize, c3wRaw, assetSizeSum, topModulesSizeSum, jsOrNum]
  have hmods : (extractBundleStats c3wRaw).modules =
      [{ name := "b", size := 70, gzipSize := none, percentage := 70, reasons := [] },
       c4wModule] := by
    rw [extract_modules_def]
    simp only [hts]
    simp [extractModules, c3wRaw, rawModuleInfo, jsOrStr, reasonsToStrs,
      sortDescBy, insertDescBy, c4wModule]
    norm_num
  refine c4_percentage_range c3wRaw c4wModule ?_ ?_ ?_
  · rw [hmods]; simp
  · norm_num [c4wModule]
  · rw [hts]; norm_num [c4wModule]

end Packlyze

namespace Packlyze

/-- C5 counterexample: `c5Raw` (a flat top-level modules array repeating
the name `"a"`) passes validation, yet the canonical module list contains
two entries with the same name — the flat path performs no merging. -/
theorem c5_counterexample :
    validateStats c5Raw = Except.ok () ∧
    (extractBundleStats c5Raw).modules.map (fun m => m.name) = ["a", "a"] ∧
    ¬ ((extractBundleStats c5Raw).modules.map (fun m => m.name)).Nodup := by
  have hmods : (extractBundleStats c5Raw).modules.map (fun m => m.name) = ["a", "a"] := by
    rw [extract_modules_def]
    simp [extractModules, c5Raw, rawModuleInfo, jsOrStr, reasonsToStrs,
      sortDescBy, insertDescBy]
  exact ⟨by norm_num [validateStats, c5Raw], hmods, by rw [hmods]; simp⟩

/-- C5 amended: merging by name (with max size) happens only on the
per-chunk nested path, where the canonical list indeed never repeats a
name; on the flat top-level path the modules are mapped one-to-one with
no dedup, so a repeated name yields repeated canonical entries. -/
theorem c5_unique_names (raw : RawStats) :
    ((raw.modules = none ∨ raw.modules = some []) →
      ((extractBundleStats raw).modules.map (fun m => m.name)).Nodup) ∧
    (∀ ms, raw.modules = some ms → ms ≠ [] →
      (extractBundleStats raw).modules.length = ms.length) := by
  constructor
  · intro h
    rw [extract_modules_def]
    refine ((sortDescBy_perm _ _).map (fun m : ModuleInfo => m.name)).nodup_iff.mpr ?_
    rw [List.map_map]
    show ((extractModules raw).map (fun m => m.name)).Nodup
    have hext : extractModules raw = chunkModulesFold (raw.chunks.getD []) := by
      rcases h with h | h <;> simp [extractModules, h]
    rw [hext]
    exact chunkModulesFold_names_nodup _
  · intro ms hms hne
    have hlen : 0 < ms.length := List.length_pos.mpr hne
    rw [extract_modules_def]
    rw [(sortDescBy_perm _ _).length_eq, List.length_map]
    simp [extractModules, hms, hlen]

/-- C5 witness: the chunk-path extraction of `twoChunkRaw 100 150` has
pairwise-distinct names, and the flat-path extraction of `c5Raw` has one
canonical entry per input entry. -/
theorem c5_unique_names_witness :
    ((extractBundleStats (twoChunkRaw 100 150)).modules.map (fun m => m.name)).Nodup ∧
    (extractBundleStats c5Raw).modules.length = 2 := by
  constructor
  · exact (c5_unique_names (twoChunkRaw 100 150)).1 (Or.inl rfl)
  · have h := (c5_unique_names c5Raw).2
      [{ name := some ("a"), size := some 1 }, { name := some ("a"), size := some 2 }]
      rfl (by simp)
    simpa using h

end Packlyze

namespace Packlyze

/-- C7 counterexample: `c7Raw` is a document whose only content is a
non-empty chunks array (no nested module lists); the claim says it is
accepted, but validation rejects it with a `SchemaError`. -/
theorem c7_counterexample :
    c7Raw.chunks.getD [] ≠ [] ∧
    validateStats c7Raw =
      Except.error (ValidationError.schemaError SchemaReason.emptyContent) ∧
    resultIsSchemaError (validateStats c7Raw) = true := by
  refine ⟨by simp [c7Raw], ?_, ?_⟩
  · simp [validateStats, c7Raw]
  · simp [validateStats, c7Raw, resultIsSchemaError]

/-- C7 amended: validation fails with `SchemaError` exactly when the
errors array is empty and: none of assets/modules/chunks is present; or
assets and modules are empty and no chunk carries a non-empty nested
modules list (so a chunks-only document is accepted only when some chunk
has nested modules); or some top-level module or asset declares a
negative size. -/
theorem c7_schema_error_iff (raw : RawStats) :
    resultIsSchemaError (validateStats raw) = true ↔
      (raw.errors.getD [] = [] ∧
        ((raw.assets = none ∧ raw.modules = none ∧ raw.chunks = none) ∨
         (raw.assets.getD [] = [] ∧ raw.modules.getD [] = [] ∧
           ∀ c ∈ raw.chunks.getD [], c.modules.getD [] = []) ∨
         (∃ m ∈ raw.modules.getD [], ∃ s, m.size = some s ∧ s < 0) ∨
         (∃ a ∈ raw.assets.getD [], ∃ s, a.size = some s ∧ s < 0))) := by
  have hfilter : ((((raw.chunks.getD []).filter (fun c =>
      match c.modules with
      | some l => decide (0 < l.length)
      | none => false)).length = 0) ↔
      (∀ c ∈ raw.chunks.getD [], c.modules.getD [] = [])) := by
    rw [List.length_eq_zero, List.filter_eq_nil_iff]
    refine forall_congr' (fun c => ?_)
    refine imp_congr_right (fun _ => ?_)
    match hm : c.modules with
    | some l => simp [hm, List.length_eq_zero]
    | none => simp [hm]
  have hanyM : (((raw.modules.getD []).any (fun m =>
      match m.size with
      | some s => decide (s < 0)
      | none => false)) = true ↔
      (∃ m ∈ raw.modules.getD [], ∃ s, m.size = some s ∧ s < 0)) := by
    rw [List.any_eq_true]
    refine exists_congr (fun m => ?_)
    refine and_congr_right (fun _ => ?_)
    match hs : m.size with
    | some s => simp [hs]
    | none => simp [hs]
  have hanyA : (((raw.assets.getD []).any (fun a =>
      match a.size with
      | some s => decide (s < 0)
      | none => false)) = true ↔
      (∃ a ∈ raw.assets.getD [], ∃ s, a.size = some s ∧ s < 0)) := by
    rw [List.any_eq_true]
    refine exists_congr (fun a => ?_)
    refine and_congr_right (fun _ => ?_)
    match hs : a.size with
    | some s => simp [hs]
    | none => simp [hs]
  have hnone : ((¬ raw.assets.isSome ∧ ¬ raw.modules.isSome ∧ ¬ raw.chunks.isSome) ↔
      (raw.assets = none ∧ raw.modules = none ∧ raw.chunks = none)) := by
    simp [Option.not_isSome_iff_eq_none]
  simp only [validateStats]
  split_ifs with h1 h2 h3 h4 h5
  · simp only [resultIsSchemaError]
    constructor
    · intro h; cases h
    · rintro ⟨he, -⟩
      rw [he] at h1
      simp at h1
  · simp only [resultIsSchemaError, true_iff]
    have he : raw.errors.getD [] = [] := by
      rcases List.eq_nil_or_concat (raw.errors.getD []) with he | ⟨l, a, he⟩
      · exact he
      · exfalso; apply h1; rw [he]; simp
    exact ⟨he, Or.inl (hnone.mp h2)⟩
  · simp only [resultIsSchemaError, true_iff]
    have he : raw.errors.getD [] = [] := by
      rcases List.eq_nil_or_concat (raw.errors.getD []) with he | ⟨l, a, he⟩
      · exact he
      · exfalso; apply h1; rw [he]; simp
    refine ⟨he, Or.inr (Or.inl ?_)⟩
    obtain ⟨ha, hm, hc⟩ := h3
    exact ⟨List.length_eq_zero.mp ha, List.length_eq_zero.mp hm, hfilter.mp hc⟩
  · simp only [resultIsSchemaError, true_iff]
    have he : raw.errors.getD [] = [] := by
      rcases List.eq_nil_or_concat (raw.errors.getD []) with he | ⟨l, a, he⟩
      · exact he
      · exfalso; apply h1; rw [he]; simp
    exact ⟨he, Or.inr (Or.inr (Or.inl (hanyM.mp h4)))⟩
  · simp only [resultIsSchemaError, true_iff]
    have he : raw.errors.getD [] = [] := by
      rcases List.eq_nil_or_concat (raw.errors.getD []) with he | ⟨l, a, he⟩
      · exact he
      · exfalso; apply h1; rw [he]; simp
    exact ⟨he, Or.inr (Or.inr (Or.inr (hanyA.mp h5)))⟩
  · simp only [resultIsSchemaError]
    constructor
    · intro h; cases h
    · rintro ⟨he, hc | hc | hc | hc⟩
      · exact (h2 (hnone.mpr hc)).elim
      · exact (h3 ⟨List.length_eq_zero.mpr hc.1, List.length_eq_zero.mpr hc.2.1,
          hfilter.mpr hc.2.2⟩).elim
      · exact (h4 (hanyM.mpr hc)).elim
      · exact (h5 (hanyA.mpr hc)).elim

end Packlyze

namespace Packlyze

theorem dupEmitStep_prop (P : DuplicateModule → Prop)
    (groups : List (String × List ModuleInfo)) (acc : List DuplicateModule)
    (hacc : ∀ d ∈ acc, P d)
    (hstep : ∀ kv : String × List ModuleInfo, 1 < kv.2.length →
      1 < (jsSetFrom (kv.2.map (fun m => m.name))).length → P (mkDuplicate kv.2)) :
    ∀ d ∈ groups.foldl dupEmitStep acc, P d := by
  induction groups generalizing acc with
  | nil => exact hacc
  | cons kv rest ih =>
    refine ih _ ?_
    intro d hd
    unfold dupEmitStep at hd
    split at hd
    · next h1 =>
      split at hd
      · next h2 =>
        rcases List.mem_append.mp hd with hd | hd
        · exact hacc d hd
        · rw [List.mem_singleton] at hd
          subst hd
          exact hstep kv h1 h2
      · exact hacc d hd
    · exact hacc d hd

/-- C8: every emitted duplicate group has at least two members and at
least two distinct full names, its `savings` is its total size minus its
cheapest member's size, and the output holds at most 10 groups sorted
descending by total size. -/
theorem c8_duplicates (stats : BundleStats) :
    (findDuplicates stats).length ≤ 10 ∧
    List.Pairwise (fun a b => b.totalSize ≤ a.totalSize) (findDuplicates stats) ∧
    ∀ d ∈ findDuplicates stats,
      2 ≤ d.names.length ∧
      2 ≤ (jsSetFrom d.names).length ∧
      ∃ mods : List ModuleInfo,
        d.names = mods.map (fun m => m.name) ∧
        d.totalSize = qsum (mods.map (fun m => m.size)) ∧
        d.savings = d.totalSize - listMin (mods.map (fun m => m.size)) := by
  refine ⟨?_, ?_, ?_⟩
  · simp only [findDuplicates]
    exact List.length_take_le _ _
  · simp only [findDuplicates]
    exact List.Pairwise.sublist (List.take_sublist _ _)
      (sortDescBy_pairwise (fun d : DuplicateModule => d.totalSize) _)
  · intro d hd
    simp only [findDuplicates] at hd
    have hd3 := mem_sortDescBy.mp (List.mem_of_mem_take hd)
    refine dupEmitStep_prop
      (fun d : DuplicateModule =>
        2 ≤ d.names.length ∧ 2 ≤ (jsSetFrom d.names).length ∧
        ∃ mods : List ModuleInfo,
          d.names = mods.map (fun m => m.name) ∧
          d.totalSize = qsum (mods.map (fun m => m.size)) ∧
          d.savings = d.totalSize - listMin (mods.map (fun m => m.size)))
      _ [] (by simp) ?_ d hd3
    intro kv h1 h2
    refine ⟨?_, h2, kv.2, rfl, rfl, rfl⟩
    simp only [mkDuplicate, List.length_map]
    exact h1

/-- C8 witness: on `dupStats` (two distinct paths sharing the basename
`h.js`, sizes 5 and 3) the single emitted group has two members, two
distinct names, total 8 and savings `8 - 3 = 5`. -/
theorem c8_duplicates_witness :
    2 ≤ dupGroup.names.length ∧
    2 ≤ (jsSetFrom dupGroup.names).length ∧
    ∃ mods : List ModuleInfo,
      dupGroup.names = mods.map (fun m => m.name) ∧
      dupGroup.totalSize = qsum (mods.map (fun m => m.size)) ∧
      dupGroup.savings = dupGroup.totalSize - listMin (mods.map (fun m => m.size)) := by
  have hdup : findDuplicates dupStats = [dupGroup] := by
    simp [findDuplicates, dupStats, dupKey, extractPackageName, scanNodeModules, pkgAt,
      captureAt, posixBasename, isSep, jsOrStr, mapUpsert, dupEmitStep, jsSetFrom,
      insertUnique, mkDuplicate, qsum, listMin, sortDescBy, insertDescBy, dupGroup]
    norm_num
  exact (c8_duplicates dupStats).2.2 dupGroup (by rw [hdup]; simp)

/-- C9 witness: chunk analysis of a chunk-free stats value is the
zero-valued result, and with a single zero-sized chunk (so the smallest
chunk has size 0) no imbalance advisory is emitted. -/
theorem c9_chunk_advisories_witness :
    analyzeChunks noChunkStats = emptyChunkAnalysis ∧
    (∀ q, ChunkAdvisory.imbalance q ∉ (analyzeChunks zeroChunkStats).recommendations) := by
  constructor
  · exact (c9_chunk_advisories noChunkStats).1 rfl
  · refine (c9_chunk_advisories zeroChunkStats).2 ?_
    simp [analyzeChunks, zeroChunkStats, sortDescBy, insertDescBy, defaultChunkInfo]

end Packlyze

namespace Packlyze

theorem generateRecommendations_dup_mem (stats : BundleStats) (n : Nat) (kb : JSNum) :
    Recommendation.duplicateModulesWarning n kb ∈ generateRecommendations stats ↔
      (0 < (findDuplicates stats).length ∧ n = (findDuplicates stats).length ∧
       kb = qsum ((findDuplicates stats).map (fun d => d.totalSize)) / 1024) := by
  simp only [generateRecommendations]
  split_ifs <;> simp_all

/-- C10: the pipeline's recommendations re-derive duplicates with the
same `findDuplicates` over the same extracted stats as the result's
`duplicates` field, so the duplicate warning appears in the result
exactly when the result's duplicates list is non-empty, and its count is
that list's length. -/
theorem c10_duplicates_recommendation (raw : RawStats) (ts : String) :
    (analyze raw ts).duplicates = findDuplicates (extractBundleStats raw) ∧
    ((∃ n kb, Recommendation.duplicateModulesWarning n kb ∈
        (analyze raw ts).recommendations) ↔ (analyze raw ts).duplicates ≠ []) ∧
    (∀ n kb, Recommendation.duplicateModulesWarning n kb ∈
        (analyze raw ts).recommendations →
      n = (analyze raw ts).duplicates.length) := by
  refine ⟨rfl, ?_, ?_⟩
  · constructor
    · rintro ⟨n, kb, hm⟩
      have h2 := (generateRecommendations_dup_mem (extractBundleStats raw) n kb).mp hm
      show findDuplicates (extractBundleStats raw) ≠ []
      exact List.length_pos.mp h2.1
    · intro hne
      have hpos : 0 < (findDuplicates (extractBundleStats raw)).length :=
        List.length_pos.mpr hne
      exact ⟨_, _, (generateRecommendations_dup_mem (extractBundleStats raw) _ _).mpr
        ⟨hpos, rfl, rfl⟩⟩
  · intro n kb hm
    exact ((generateRecommendations_dup_mem (extractBundleStats raw) n kb).mp hm).2.1

end Packlyze

namespace Packlyze

/-- C10 witness: for `c10wRaw` the pipeline emits the duplicate warning
with count 1, equal to the length of the result's duplicates list. -/
theorem c10_duplicates_recommendation_witness :
    (1 : Nat) = (analyze c10wRaw ("t")).duplicates.length := by
  have hstats : extractBundleStats c10wRaw =
      { name := "bundle", size := 8, gzipSize := 0,
        modules :=
          [ { name := "x/h.js", size := 5, gzipSize := none, percentage := 125 / 2,
              reasons := [] },
            { name := "y/h.js", size := 3, gzipSize := none, percentage := 75 / 2,
              reasons := [] } ],
        chunks := [], isInitialBySize := 0, isInitialByCount := 0,
        parsedSize := 0 } := by
    simp [extractBundleStats, extractModules, c10wRaw, rawModuleInfo, jsOrStr,
      reasonsToStrs, getTotalSize, getTotalGzipSize, getTotalSizeFallback,
      getTotalGzipSizeFallback, assetSizeSum, assetGzipSum, topModulesSizeSum,
      topModulesGzipSum, chunkDedupSizeSum, chunkDedupGzipSum, chunkSizeSum,
      chunkGzipSum, jsOrNum, qsum, sortDescBy, insertDescBy, extractChunks,
      getInitialBundleSize]
    norm_num
  have hmem : Recommendation.duplicateModulesWarning 1 (8 / 1024) ∈
      (analyze c10wRaw ("t")).recommendations := by
    show Recommendation.duplicateModulesWarning 1 (8 / 1024) ∈
      generateRecommendations (extractBundleStats c10wRaw)
    rw [hstats]
    refine (generateRecommendations_dup_mem _ 1 (8 / 1024)).mpr ?_
    have hdup : findDuplicates
        ({ name := "bundle", size := 8, gzipSize := 0,
           modules :=
             [ { name := "x/h.js", size := 5, gzipSize := none, percentage := 125 / 2,
                 reasons := [] },
               { name := "y/h.js", size := 3, gzipSize := none, percentage := 75 / 2,
                 reasons := [] } ],
           chunks := [], isInitialBySize := 0, isInitialByCount := 0,
           parsedSize := 0 } : BundleStats) =
        [{ names := ["x/h.js", "y/h.js"], totalSize := 8, savings := 5 }] := by
      simp [findDuplicates, dupKey, extractPackageName, scanNodeModules, pkgAt,
        captureAt, posixBasename, isSep, jsOrStr, mapUpsert, dupEmitStep, jsSetFrom,
        insertUnique, mkDuplicate, qsum, listMin, sortDescBy, insertDescBy]
      norm_num
    rw [hdup]
    norm_num [qsum]
  exact (c10_duplicates_recommendation c10wRaw ("t")).2.2 1 (8 / 1024) hmem

end Packlyze
